import Mathlib

/-!
Verification of the go-steam-auth library (package gosteamauth).

The Go source (auth.go, user.go) is shallowly embedded below.  Go strings are
byte strings; we embed them as Lean `String`s whose characters play the role of
bytes (faithful for all byte values 0..255, which theorems about percent
encoding make explicit with a `< 256` hypothesis).  `url.Values`
(`map[string][]string`) is embedded as an association list with the map
invariant that keys are looked up by first match; `Set`, `Get`, `Add` and
`Encode` are transcribed from Go's net/url.  HTTP traffic is embedded as an
oracle `String → Except String Resp` supplied by the environment: the argument
is the request body (for the confirmation POST) or the request URL (for the
profile GET), and the result is either a transport error or a response.
Methods on `*SteamAuther` return the receiver in their result record so that
any field mutation would be observable; the Go source never assigns to a
field, and the embedding mirrors that.
-/

namespace GoSteamAuth

/-! ### Byte and character helpers (net/url escaping, strings package) -/

/-- Go net/url `shouldEscape` for query components, negated: bytes that are
left unescaped by `url.QueryEscape` (alphanumerics and `-_.~`). -/
def isUnreservedChar (c : Char) : Bool :=
  (('A' ≤ c && c ≤ 'Z') || ('a' ≤ c && c ≤ 'z') || ('0' ≤ c && c ≤ '9')
    || c = '-' || c = '_' || c = '.' || c = '~')

/-- Upper-case hex digit of a value below 16, as in Go's `"0123456789ABCDEF"`. -/
def upperHexDigit (n : Nat) : Char :=
  if n < 10 then Char.ofNat (48 + n) else Char.ofNat (55 + n)

/-- Value of a hex digit character, as in Go's `unhex`. -/
def hexVal (c : Char) : Option Nat :=
  if '0' ≤ c && c ≤ '9' then some (c.toNat - 48)
  else if 'A' ≤ c && c ≤ 'F' then some (c.toNat - 55)
  else if 'a' ≤ c && c ≤ 'f' then some (c.toNat - 87)
  else none

/-- `url.QueryEscape` on a single byte: unreserved bytes pass through, space
becomes `+`, everything else becomes `%XX`. -/
def escapeChar (c : Char) : List Char :=
  if isUnreservedChar c then [c]
  else if c = ' ' then ['+']
  else ['%', upperHexDigit (c.toNat / 16), upperHexDigit (c.toNat % 16)]

/-- `url.QueryEscape` over a byte string. -/
def escapeList (l : List Char) : List Char :=
  (l.map escapeChar).flatten

/-- `url.QueryUnescape`: `+` becomes space, `%XX` becomes the byte `XX`
(failing on a malformed escape), other bytes pass through. -/
def unescapeList : List Char → Option (List Char)
  | [] => some []
  | c :: t =>
    if c = '%' then
      match t with
      | h1 :: h2 :: t2 =>
        match hexVal h1, hexVal h2 with
        | some a, some b => (unescapeList t2).map (fun r => Char.ofNat (16 * a + b) :: r)
        | _, _ => none
      | _ => none
    else if c = '+' then (unescapeList t).map (fun r => ' ' :: r)
    else (unescapeList t).map (fun r => c :: r)

/-- Go `strings.Cut(s, sep)` for a one-byte separator: the part before the
first occurrence, the part after it, and whether it was found. -/
def cutChar (sep : Char) : List Char → List Char × List Char × Bool
  | [] => ([], [], false)
  | c :: t =>
    if c = sep then ([], t, true)
    else
      let r := cutChar sep t
      (c :: r.1, r.2.1, r.2.2)

/-- Go `strings.Split(s, sep)` for a one-byte separator: the (non-empty)
list of the parts between the occurrences of the separator. -/
def splitList (sep : Char) : List Char → List (List Char)
  | [] => [[]]
  | c :: t =>
    if c = sep then [] :: splitList sep t
    else
      match splitList sep t with
      | [] => [[c]]
      | p :: ps => (c :: p) :: ps

/-- Go `strings.HasPrefix` on byte lists (helper for `Contains`). -/
def startsWithList : List Char → List Char → Bool
  | _, [] => true
  | [], _ :: _ => false
  | a :: as, b :: bs => a = b && startsWithList as bs

/-- Go `strings.Contains` on byte lists. -/
def containsList (sub : List Char) : List Char → Bool
  | [] => startsWithList [] sub
  | c :: t => startsWithList (c :: t) sub || containsList sub t

/-- Go `strings.Contains s sub`. -/
def containsStr (s sub : String) : Bool :=
  containsList sub.data s.data

/-! ### url.Values -/

/-- `url.Values` is `map[string][]string`; embedded as an association list
with first-match lookup (the invariant of a map: at most one entry per key). -/
abbrev Values := List (String × List String)

/-- Lookup of a key in the map. -/
def lookupKey : Values → String → Option (List String)
  | [], _ => none
  | (k, vs) :: t, key => if k = key then some vs else lookupKey t key

/-- `Values.Get`: first value associated to the key, or `""`. -/
def valsGet (v : Values) (key : String) : String :=
  match lookupKey v key with
  | none => ""
  | some [] => ""
  | some (x :: _) => x

/-- `Values.Set`: replace the entry for the key with a single value. -/
def valsSet : Values → String → String → Values
  | [], key, val => [(key, [val])]
  | (k, vs) :: t, key, val =>
    if k = key then (key, [val]) :: t else (k, vs) :: valsSet t key val

/-- `Values.Add`: append a value to the entry for the key. -/
def valsAdd : Values → String → String → Values
  | [], key, val => [(key, [val])]
  | (k, vs) :: t, key, val =>
    if k = key then (k, vs ++ [val]) :: t else (k, vs) :: valsAdd t key val

/-- Byte-wise comparison of strings, as Go's `<` on strings (used by the key
sort in `Values.Encode`). -/
def listStrLe : List Char → List Char → Bool
  | [], _ => true
  | _ :: _, [] => false
  | a :: as, b :: bs => if a = b then listStrLe as bs else decide (a.toNat < b.toNat)

def strLe (a b : String) : Bool := listStrLe a.data b.data

def insertSorted (s : String) : List String → List String
  | [] => [s]
  | x :: t => if strLe s x then s :: x :: t else x :: insertSorted s t

/-- `sort.Strings` on the key list (stable order is irrelevant for a map's
distinct keys). -/
def sortStrings : List String → List String
  | [] => []
  | x :: t => insertSorted x (sortStrings t)

/-- Glue `k=v` chunks with `&`, as `Values.Encode` does. -/
def joinAmp : List (List Char) → List Char
  | [] => []
  | [x] => x
  | x :: y :: t => x ++ '&' :: joinAmp (y :: t)

/-- The `k=escape(v)` chunks of one key of `Values.Encode`. -/
def encodePairs (k : String) (vs : List String) : List (List Char) :=
  vs.map (fun v => escapeList k.data ++ '=' :: escapeList v.data)

/-- `Values.Encode`: keys sorted, each value escaped, chunks joined by `&`. -/
def valsEncode (v : Values) : String :=
  ⟨joinAmp (((sortStrings (v.map (fun p => p.1))).map
    (fun k => encodePairs k ((lookupKey v k).getD []))).flatten)⟩

/-- One `key=value` chunk of `url.ParseQuery`: cut at the first `=`,
unescape both sides, skip the pair on a bad escape. -/
def parseQueryStep (chunk : List Char) (acc : Values) : Values :=
  if chunk = [] then acc
  else
    let c := cutChar '=' chunk
    match unescapeList c.1, unescapeList c.2.1 with
    | some k, some v => valsAdd acc ⟨k⟩ ⟨v⟩
    | _, _ => acc

/-- `url.ParseQuery` (the error it can also report is discarded by
`URL.Query`, the only caller in this code base).  Go's cut loop over the
`&`-separated chunks is expressed as a fold over the chunk list: empty
chunks (from leading, trailing or doubled separators, or from an empty
query) are skipped by `parseQueryStep`, exactly as the loop's
`if key == "" continue` does. -/
def parseQueryGo (s : String) : Values :=
  (splitList '&' s.data).foldl (fun acc chunk => parseQueryStep chunk acc) []

/-! ### net/url URL (the fragment of url.Parse this code base exercises) -/

/-- The components of a parsed absolute URL that this library uses. -/
structure GoURL where
  scheme : String
  host : String
  path : String
  rawQuery : String
deriving DecidableEq, Repr

/-- `url.Parse` restricted to absolute URLs of the shape
`scheme://host/path?rawQuery` (the only shape this code base parses). -/
def parseUrl (s : String) : Option GoURL :=
  match cutChar ':' s.data with
  | (_, _, false) => none
  | (sch, rest1, true) =>
    match rest1 with
    | '/' :: '/' :: rest2 =>
      let h := cutChar '/' rest2
      let pathq : List Char := if h.2.2 then '/' :: h.2.1 else []
      let pq := cutChar '?' pathq
      some ⟨⟨sch⟩, ⟨h.1⟩, ⟨pq.1⟩, ⟨pq.2.1⟩⟩
    | _ => none

/-- `URL.String` for the shapes built here. -/
def urlString (u : GoURL) : String :=
  u.scheme ++ "://" ++ u.host ++ u.path
    ++ (if u.rawQuery = "" then "" else "?" ++ u.rawQuery)

/-! ### Data model (auth.go, user.go) -/

/-- `SteamAuther` provides methods to handle authentication for steam users. -/
structure SteamAuther where
  apiKey : String
  realm : String
deriving DecidableEq, Repr

/-- `New` returns a new SteamAuther with the provided options. -/
def New (apiKey realm : String) : SteamAuther :=
  { apiKey := apiKey, realm := realm }

/-- `OpenIdLoginUrl`, hardcoded in auth.go. -/
def OpenIdLoginUrl : String := "https://steamcommunity.com/openid/login"

/-- `SteamUser` as represented in the GetPlayerSummaries response (user.go).
Go `int` fields are embedded as `Int`. -/
structure SteamUser where
  steamID : String
  personaName : String
  personaState : Int
  profileUrl : String
  profileState : Int
  communityVisibilityStatus : Int
  avatar : String
  avatarMedium : String
  avatarFull : String
deriving DecidableEq, Repr

/-- The `SteamUser` all of whose fields hold Go zero values (what
encoding/json leaves untouched). -/
def zeroSteamUser : SteamUser :=
  ⟨"", "", 0, "", 0, 0, "", "", ""⟩

/-! ### ValidateCallback -/

/-- The distinct error values `ValidateCallback` can return:
the `fmt.Errorf` for an unexpected mode, the two wrapping errors of the
confirmation POST and of reading its body, and the sentinel
`ErrInvalidAuthRequest`. -/
inductive VErr where
  | unexpectedMode (got : String)
  | postFailed (wrapped : String)
  | readFailed (wrapped : String)
  | invalidAuthRequest
deriving DecidableEq, Repr

/-- The HTTP response of the confirmation POST: status line data and the
result of `io.ReadAll` on the body. -/
structure HttpResp where
  status : Nat
  statusText : String
  body : Except String String
deriving Repr

/-- The two Go return values of `ValidateCallback`, plus the observable
effects of the call: the final state of the caller-supplied `url.Values`
map (`vals` is a Go map, passed by reference), the bodies of the outbound
POST requests made, and the receiver. -/
structure CallbackResult where
  id : String
  err : Option VErr
  vals : Values
  requests : List String
  sa : SteamAuther

/-- The identifier extraction of auth.go lines 95-96:
`p := strings.Split(claimedId, "/"); return p[len(p)-1]`. -/
def lastSegment (s : String) : String :=
  let p := splitList '/' s.data
  ⟨p.getD (p.length - 1) []⟩

/-- `ValidateCallback` (auth.go).  `net` is the network: it maps the
form-encoded POST body to the transport result of
`http.Post(OpenIdLoginUrl, "application/x-www-form-urlencoded", body)`. -/
def ValidateCallback (sa : SteamAuther) (vals : Values)
    (net : String → Except String HttpResp) : CallbackResult :=
  if valsGet vals "openid.mode" ≠ "id_res" then
    { id := "", err := some (.unexpectedMode (valsGet vals "openid.mode")),
      vals := vals, requests := [], sa := sa }
  else
    let vals := valsSet vals "openid.mode" "check_authentication"
    let reqBody := valsEncode vals
    match net reqBody with
    | .error e =>
      { id := "", err := some (.postFailed e), vals := vals,
        requests := [reqBody], sa := sa }
    | .ok res =>
      match res.body with
      | .error e =>
        { id := "", err := some (.readFailed e), vals := vals,
          requests := [reqBody], sa := sa }
      | .ok bodyStr =>
        if containsStr bodyStr "is_valid:true" = false then
          { id := "", err := some .invalidAuthRequest, vals := vals,
            requests := [reqBody], sa := sa }
        else
          { id := lastSegment (valsGet vals "openid.claimed_id"), err := none,
            vals := vals, requests := [reqBody], sa := sa }

/-! ### GetAuthUrl -/

/-- The two Go return values of `GetAuthUrl`, plus the receiver. -/
structure AuthUrlResult where
  url : String
  err : Option String
  sa : SteamAuther

/-- `GetAuthUrl` (auth.go): parse the fixed endpoint, set the six openid
query parameters, re-encode the query. -/
def GetAuthUrl (sa : SteamAuther) (returnUrl : String) : AuthUrlResult :=
  match parseUrl OpenIdLoginUrl with
  | none =>
    { url := "", err := some "get redirect url: parse error", sa := sa }
  | some u =>
    let q := parseQueryGo u.rawQuery
    let q := valsSet q "openid.ns" "http://specs.openid.net/auth/2.0"
    let q := valsSet q "openid.mode" "checkid_setup"
    let q := valsSet q "openid.realm" sa.realm
    let q := valsSet q "openid.return_to" returnUrl
    let q := valsSet q "openid.claimed_id" "http://specs.openid.net/auth/2.0/identifier_select"
    let q := valsSet q "openid.identity" "http://specs.openid.net/auth/2.0/identifier_select"
    let u := { u with rawQuery := valsEncode q }
    { url := urlString u, err := none, sa := sa }

/-! ### GetSteamUser -/

/-- JSON values, the parse result of the profile response body. -/
inductive Json where
  | null
  | bool (b : Bool)
  | num (n : Int)
  | str (s : String)
  | arr (elems : List Json)
  | obj (fields : List (String × Json))

/-- encoding/json field lookup: an exact key match wins, otherwise the first
case-insensitive match (ASCII case folding). -/
def jlookup (key : String) (fields : List (String × Json)) : Option Json :=
  match fields.find? (fun p => p.1 = key) with
  | some p => some p.2
  | none =>
    match fields.find? (fun p => p.1.toLower = key.toLower) with
    | some p => some p.2
    | none => none

/-- Decoding a JSON value into a Go `string` field: `null` is a no-op
(leaving the zero value), a string is taken, anything else is a type error. -/
def decodeStringField (fields : List (String × Json)) (key : String) :
    Except String String :=
  match jlookup key fields with
  | none => .ok ""
  | some .null => .ok ""
  | some (.str s) => .ok s
  | some _ => .error ("cannot unmarshal into string field " ++ key)

/-- Decoding a JSON value into a Go `int` field. -/
def decodeIntField (fields : List (String × Json)) (key : String) :
    Except String Int :=
  match jlookup key fields with
  | none => .ok 0
  | some .null => .ok 0
  | some (.num n) => .ok n
  | some _ => .error ("cannot unmarshal into int field " ++ key)

/-- encoding/json decoding of one `SteamUser` (the nine tagged fields of
user.go). -/
def decodeSteamUser : Json → Except String SteamUser
  | .null => .ok zeroSteamUser
  | .obj fields => do
    let steamid ← decodeStringField fields "steamid"
    let personaname ← decodeStringField fields "personaname"
    let personastate ← decodeIntField fields "personastate"
    let profileurl ← decodeStringField fields "profileurl"
    let profilestate ← decodeIntField fields "profilestate"
    let communityvisibilitystate ← decodeIntField fields "communityvisibilitystate"
    let avatar ← decodeStringField fields "avatar"
    let avatarmedium ← decodeStringField fields "avatarmedium"
    let avatarfull ← decodeStringField fields "avatarfull"
    .ok ⟨steamid, personaname, personastate, profileurl, profilestate,
      communityvisibilitystate, avatar, avatarmedium, avatarfull⟩
  | _ => .error "cannot unmarshal into SteamUser"

/-- Decoding the `players` array. -/
def decodePlayers : List Json → Except String (List SteamUser)
  | [] => .ok []
  | j :: t => do
    let u ← decodeSteamUser j
    let us ← decodePlayers t
    .ok (u :: us)

/-- encoding/json decoding of the anonymous envelope of auth.go:
`struct { Response struct { Players []SteamUser } }`; yields the players
list. -/
def decodeEnvelope (j : Json) : Except String (List SteamUser) :=
  match j with
  | .null => .ok []
  | .obj fields =>
    (match jlookup "response" fields with
     | none => .ok []
     | some .null => .ok []
     | some (.obj rfields) =>
       (match jlookup "players" rfields with
        | none => .ok []
        | some .null => .ok []
        | some (.arr elems) => decodePlayers elems
        | some _ => .error "cannot unmarshal into players field")
     | some _ => .error "cannot unmarshal into response field")
  | _ => .error "cannot unmarshal into envelope"

/-- The distinct error values `GetSteamUser` can return: the wrapped URL
parse error, the wrapped transport error of the GET, the non-200 status
error (carrying `res.Status`), the wrapped body-decode error, and the
sentinel `ErrNoData`. -/
inductive GErr where
  | parseApiUrl (wrapped : String)
  | getFailed (wrapped : String)
  | badStatus (statusText : String)
  | decodeFailed (wrapped : String)
  | noData
deriving DecidableEq, Repr

/-- The HTTP response of the profile GET: the status code, the status line
`res.Status`, and the result of reading and JSON-parsing the body (which
`json.Decoder.Decode` folds into one error). -/
structure ApiResp where
  status : Nat
  statusText : String
  body : Except String Json

/-- The two Go return values of `GetSteamUser` (`*SteamUser` embedded as
`Option SteamUser`), plus the request URLs fetched and the receiver. -/
structure UserResult where
  user : Option SteamUser
  err : Option GErr
  requests : List String
  sa : SteamAuther

/-- `GetSteamUser` (auth.go).  `net` is the network: it maps the request URL
to the transport result of `http.Get`. -/
def GetSteamUser (sa : SteamAuther) (steamid64 : String)
    (net : String → Except String ApiResp) : UserResult :=
  match parseUrl "http://api.steampowered.com/ISteamUser/GetPlayerSummaries/v0002" with
  | none =>
    { user := none, err := some (.parseApiUrl "parse api url"), requests := [], sa := sa }
  | some u =>
    let q := parseQueryGo u.rawQuery
    let q := valsSet q "key" sa.apiKey
    let q := valsSet q "steamids" steamid64
    let u := { u with rawQuery := valsEncode q }
    let reqUrl := urlString u
    match net reqUrl with
    | .error e =>
      { user := none, err := some (.getFailed e), requests := [reqUrl], sa := sa }
    | .ok res =>
      if res.status ≠ 200 then
        { user := none, err := some (.badStatus res.statusText),
          requests := [reqUrl], sa := sa }
      else
        match res.body with
        | .error e =>
          { user := none, err := some (.decodeFailed e), requests := [reqUrl], sa := sa }
        | .ok j =>
          match decodeEnvelope j with
          | .error e =>
            { user := none, err := some (.decodeFailed e), requests := [reqUrl], sa := sa }
          | .ok players =>
            if players.length < 1 then
              { user := none, err := some .noData, requests := [reqUrl], sa := sa }
            else
              { user := players.head?, err := none, requests := [reqUrl], sa := sa }

/-! ### Call sequences on one SteamAuther (for the immutability claim) -/

/-- One method call on a `SteamAuther`, with its arguments and its view of
the network. -/
inductive Op where
  | authUrl (returnUrl : String)
  | callback (vals : Values) (net : String → Except String HttpResp)
  | user (steamid64 : String) (net : String → Except String ApiResp)

/-- The receiver state after one method call. -/
def runOp (sa : SteamAuther) : Op → SteamAuther
  | .authUrl r => (GetAuthUrl sa r).sa
  | .callback vals net => (ValidateCallback sa vals net).sa
  | .user s net => (GetSteamUser sa s net).sa

/-- The receiver state after a sequence of method calls. -/
def runOps (sa : SteamAuther) : List Op → SteamAuther
  | [] => sa
  | op :: t => runOps (runOp sa op) t

/-! ### Concrete fixtures used by witnesses -/

/-- A sample authenticator. -/
def sampleAuther : SteamAuther := New "apikey" "http://localhost:8080"

/-- A sample positive-assertion callback, as the provider would deliver it. -/
def sampleCallbackVals : Values :=
  [("openid.mode", ["id_res"]),
   ("openid.claimed_id", ["https://steamcommunity.com/openid/id/76561197960287930"])]

/-- A confirmation body carrying the validity marker. -/
def okBody : String := "ns:http://specs.openid.net/auth/2.0\nis_valid:true\n"

/-- A confirmation body carrying a negative answer. -/
def badBody : String := "ns:http://specs.openid.net/auth/2.0\nis_valid:false\n"

/-- A sample well-formed player object, as the profile endpoint returns it. -/
def samplePlayer : List (String × Json) :=
  [("steamid", .str "76561197960287930"),
   ("personaname", .str "Rabscuttle"),
   ("personastate", .num 1),
   ("profileurl", .str "https://steamcommunity.com/id/rabscuttle/"),
   ("profilestate", .num 1),
   ("communityvisibilitystate", .num 3),
   ("avatar", .str "https://avatars.example/a32.jpg"),
   ("avatarmedium", .str "https://avatars.example/a64.jpg"),
   ("avatarfull", .str "https://avatars.example/a128.jpg")]

/-! ## Theorems -/

/-! ### Library lemmas on the embedded net/url and strings operations -/

theorem parseOpenIdLoginUrl_eq :
    parseUrl OpenIdLoginUrl =
      some ⟨"https", "steamcommunity.com", "/openid/login", ""⟩ := rfl

theorem parseApiUrl_eq :
    parseUrl "http://api.steampowered.com/ISteamUser/GetPlayerSummaries/v0002" =
      some ⟨"http", "api.steampowered.com", "/ISteamUser/GetPlayerSummaries/v0002", ""⟩ := rfl

theorem lookupKey_valsSet_ne (v : Values) (key val k : String) (h : key ≠ k) :
    lookupKey (valsSet v key val) k = lookupKey v k := by
  induction v with
  | nil => simp [valsSet, lookupKey, h]
  | cons p t ih =>
    obtain ⟨pk, pvs⟩ := p
    by_cases hp : pk = key
    · subst hp
      simp [valsSet, lookupKey, h]
    · by_cases hk : pk = k
      · subst hk
        simp [valsSet, hp, lookupKey]
      · simp [valsSet, hp, lookupKey, hk, ih]

theorem valsGet_valsSet_ne (v : Values) (key val k : String) (h : key ≠ k) :
    valsGet (valsSet v key val) k = valsGet v k := by
  unfold valsGet
  rw [lookupKey_valsSet_ne v key val k h]

theorem valsGet_claimed_after_modeSet (vals : Values) (x : String) :
    valsGet (valsSet vals "openid.mode" x) "openid.claimed_id" =
      valsGet vals "openid.claimed_id" :=
  valsGet_valsSet_ne _ _ _ _ (by decide)

theorem lookupKey_valsSet_self (v : Values) (key val : String) :
    lookupKey (valsSet v key val) key = some [val] := by
  induction v with
  | nil => simp [valsSet, lookupKey]
  | cons p t ih =>
    obtain ⟨pk, pvs⟩ := p
    by_cases hp : pk = key
    · subst hp; simp [valsSet, lookupKey]
    · simp [valsSet, hp, lookupKey, ih]

theorem valsGet_valsSet_self (v : Values) (key val : String) :
    valsGet (valsSet v key val) key = val := by
  unfold valsGet
  rw [lookupKey_valsSet_self]

theorem splitList_ne_nil (sep : Char) (l : List Char) : splitList sep l ≠ [] := by
  cases l with
  | nil => simp [splitList]
  | cons c t =>
    simp only [splitList]
    split
    · simp
    · split <;> simp

theorem splitList_not_mem (sep : Char) (l : List Char) (h : sep ∉ l) :
    splitList sep l = [l] := by
  induction l with
  | nil => rfl
  | cons c t ih =>
    simp only [List.mem_cons, not_or] at h
    have hc : ¬(c = sep) := fun hcs => h.1 hcs.symm
    simp only [splitList, if_neg hc, ih h.2]

theorem lastSegment_empty : lastSegment "" = "" := rfl

theorem lastSegment_no_slash (s : String) (h : '/' ∉ s.data) : lastSegment s = s := by
  unfold lastSegment
  rw [splitList_not_mem '/' s.data h]
  rfl

/-! ### Branch lemmas for ValidateCallback -/

theorem validateCallback_badMode_eq (sa : SteamAuther) (vals : Values)
    (net : String → Except String HttpResp)
    (hmode : valsGet vals "openid.mode" ≠ "id_res") :
    ValidateCallback sa vals net =
      { id := "", err := some (.unexpectedMode (valsGet vals "openid.mode")),
        vals := vals, requests := [], sa := sa } := by
  unfold ValidateCallback
  rw [if_pos hmode]

theorem validateCallback_okResp_eq (sa : SteamAuther) (vals : Values)
    (st : Nat) (stxt : String) (body : String)
    (hmode : valsGet vals "openid.mode" = "id_res") :
    ValidateCallback sa vals (fun _ => .ok ⟨st, stxt, .ok body⟩) =
      if containsStr body "is_valid:true" = false then
        { id := "", err := some .invalidAuthRequest,
          vals := valsSet vals "openid.mode" "check_authentication",
          requests := [valsEncode (valsSet vals "openid.mode" "check_authentication")],
          sa := sa }
      else
        { id := lastSegment (valsGet vals "openid.claimed_id"), err := none,
          vals := valsSet vals "openid.mode" "check_authentication",
          requests := [valsEncode (valsSet vals "openid.mode" "check_authentication")],
          sa := sa } := by
  unfold ValidateCallback
  rw [if_neg (by simp [hmode])]
  simp only []
  split <;> simp [valsGet_claimed_after_modeSet]

theorem validateCallback_postErr_eq (sa : SteamAuther) (vals : Values) (e : String)
    (hmode : valsGet vals "openid.mode" = "id_res") :
    ValidateCallback sa vals (fun _ => .error e) =
      { id := "", err := some (.postFailed e),
        vals := valsSet vals "openid.mode" "check_authentication",
        requests := [valsEncode (valsSet vals "openid.mode" "check_authentication")],
        sa := sa } := by
  unfold ValidateCallback
  rw [if_neg (by simp [hmode])]

theorem validateCallback_readErr_eq (sa : SteamAuther) (vals : Values)
    (st : Nat) (stxt : String) (e : String)
    (hmode : valsGet vals "openid.mode" = "id_res") :
    ValidateCallback sa vals (fun _ => .ok ⟨st, stxt, .error e⟩) =
      { id := "", err := some (.readFailed e),
        vals := valsSet vals "openid.mode" "check_authentication",
        requests := [valsEncode (valsSet vals "openid.mode" "check_authentication")],
        sa := sa } := by
  unfold ValidateCallback
  rw [if_neg (by simp [hmode])]

theorem getAuthUrl_sa (sa : SteamAuther) (r : String) : (GetAuthUrl sa r).sa = sa := rfl

theorem validateCallback_sa (sa : SteamAuther) (vals : Values)
    (net : String → Except String HttpResp) : (ValidateCallback sa vals net).sa = sa := by
  unfold ValidateCallback
  dsimp only
  split
  · rfl
  · split
    · rfl
    · split
      · rfl
      · split <;> rfl

theorem getSteamUser_sa (sa : SteamAuther) (steamid64 : String)
    (net : String → Except String ApiResp) : (GetSteamUser sa steamid64 net).sa = sa := by
  unfold GetSteamUser
  rw [parseApiUrl_eq]
  dsimp only
  split
  · rfl
  · split
    · rfl
    · split
      · rfl
      · split
        · rfl
        · split <;> rfl

/-! ### Claims -/

/-- C1: for every callback parameter mapping whose openid.mode is "id_res"
and whose confirmation response body contains the substring "is_valid:true",
ValidateCallback succeeds (no error) and returns exactly the final
'/'-separated segment of the original input's openid.claimed_id value, as an
opaque string; in particular the segment extracted from
"https://steamcommunity.com/openid/id/76561197960287930" is
"76561197960287930". -/
theorem validateCallback_success_returns_claimed_tail (sa : SteamAuther)
    (vals : Values) (st : Nat) (stxt : String) (body : String)
    (hmode : valsGet vals "openid.mode" = "id_res")
    (hmark : containsStr body "is_valid:true" = true) :
    (ValidateCallback sa vals (fun _ => .ok ⟨st, stxt, .ok body⟩)).err = none ∧
    (ValidateCallback sa vals (fun _ => .ok ⟨st, stxt, .ok body⟩)).id =
      lastSegment (valsGet vals "openid.claimed_id") ∧
    lastSegment "https://steamcommunity.com/openid/id/76561197960287930" =
      "76561197960287930" := by
  rw [validateCallback_okResp_eq sa vals st stxt body hmode]
  rw [if_neg (by simp [hmark])]
  exact ⟨rfl, rfl, by decide⟩

theorem validateCallback_success_witness :
    valsGet sampleCallbackVals "openid.mode" = "id_res" ∧
    containsStr okBody "is_valid:true" = true ∧
    ((ValidateCallback sampleAuther sampleCallbackVals
        (fun _ => .ok ⟨200, "200 OK", .ok okBody⟩)).err = none ∧
      (ValidateCallback sampleAuther sampleCallbackVals
        (fun _ => .ok ⟨200, "200 OK", .ok okBody⟩)).id =
        lastSegment (valsGet sampleCallbackVals "openid.claimed_id") ∧
      lastSegment "https://steamcommunity.com/openid/id/76561197960287930" =
        "76561197960287930") :=
  ⟨by decide, by decide,
    validateCallback_success_returns_claimed_tail sampleAuther sampleCallbackVals
      200 "200 OK" okBody (by decide) (by decide)⟩

/-- C2: for every callback input with openid.mode "id_res", if the
confirmation response body does not contain the substring "is_valid:true",
ValidateCallback fails with the sentinel invalid-authentication error,
which is a different value from every transport error, and the returned
identifier string is empty. -/
theorem validateCallback_invalid_marker (sa : SteamAuther) (vals : Values)
    (st : Nat) (stxt : String) (body : String)
    (hmode : valsGet vals "openid.mode" = "id_res")
    (hmark : containsStr body "is_valid:true" = false) :
    (ValidateCallback sa vals (fun _ => .ok ⟨st, stxt, .ok body⟩)).id = "" ∧
    (ValidateCallback sa vals (fun _ => .ok ⟨st, stxt, .ok body⟩)).err =
      some VErr.invalidAuthRequest ∧
    (∀ m : String, VErr.invalidAuthRequest ≠ VErr.postFailed m ∧
      VErr.invalidAuthRequest ≠ VErr.readFailed m) := by
  rw [validateCallback_okResp_eq sa vals st stxt body hmode]
  rw [if_pos hmark]
  exact ⟨rfl, rfl, fun m => ⟨by simp, by simp⟩⟩

theorem validateCallback_invalid_marker_witness :
    valsGet sampleCallbackVals "openid.mode" = "id_res" ∧
    containsStr badBody "is_valid:true" = false ∧
    ((ValidateCallback sampleAuther sampleCallbackVals
        (fun _ => .ok ⟨200, "200 OK", .ok badBody⟩)).id = "" ∧
      (ValidateCallback sampleAuther sampleCallbackVals
        (fun _ => .ok ⟨200, "200 OK", .ok badBody⟩)).err =
        some VErr.invalidAuthRequest ∧
      (∀ m : String, VErr.invalidAuthRequest ≠ VErr.postFailed m ∧
        VErr.invalidAuthRequest ≠ VErr.readFailed m)) :=
  ⟨by decide, by decide,
    validateCallback_invalid_marker sampleAuther sampleCallbackVals
      200 "200 OK" badBody (by decide) (by decide)⟩

/-- C3: for every callback parameter mapping whose openid.mode is anything
other than exactly "id_res", ValidateCallback fails with the
protocol-mismatch error, returns an empty identifier, makes no outbound
network request, and leaves the caller-supplied mapping untouched. -/
theorem validateCallback_badMode (sa : SteamAuther) (vals : Values)
    (net : String → Except String HttpResp)
    (hmode : valsGet vals "openid.mode" ≠ "id_res") :
    (ValidateCallback sa vals net).id = "" ∧
    (ValidateCallback sa vals net).err =
      some (VErr.unexpectedMode (valsGet vals "openid.mode")) ∧
    (ValidateCallback sa vals net).requests = [] ∧
    (ValidateCallback sa vals net).vals = vals := by
  rw [validateCallback_badMode_eq sa vals net hmode]
  exact ⟨rfl, rfl, rfl, rfl⟩

theorem validateCallback_badMode_witness :
    valsGet [("openid.mode", ["cancel"])] "openid.mode" ≠ "id_res" ∧
    ((ValidateCallback sampleAuther [("openid.mode", ["cancel"])]
        (fun _ => .error "network unavailable")).id = "" ∧
      (ValidateCallback sampleAuther [("openid.mode", ["cancel"])]
        (fun _ => .error "network unavailable")).err =
        some (VErr.unexpectedMode
          (valsGet [("openid.mode", ["cancel"])] "openid.mode")) ∧
      (ValidateCallback sampleAuther [("openid.mode", ["cancel"])]
        (fun _ => .error "network unavailable")).requests = [] ∧
      (ValidateCallback sampleAuther [("openid.mode", ["cancel"])]
        (fun _ => .error "network unavailable")).vals =
        [("openid.mode", ["cancel"])]) :=
  ⟨by decide,
    validateCallback_badMode sampleAuther [("openid.mode", ["cancel"])]
      (fun _ => .error "network unavailable") (by decide)⟩

/-- C4 counterexample: the claim says a non-2xx HTTP status from the
provider yields an error wrapping the transport/HTTP failure,
distinguishable from the invalid-assertion error; but on a 500 response
whose body lacks the marker, ValidateCallback returns exactly the
invalid-assertion sentinel. -/
theorem validateCallback_status_not_inspected :
    (ValidateCallback (New "k" "r") [("openid.mode", ["id_res"])]
      (fun _ => .ok ⟨500, "500 Internal Server Error", .ok "is_valid:false"⟩)).err =
      some VErr.invalidAuthRequest := by decide

/-- C4 (amended): whenever the confirmation POST encounters a network
failure, or reading the response body fails, ValidateCallback fails with a
distinct error wrapping the failure, distinguishable from the
invalid-assertion error, and performs no retry (exactly one request is
made); the HTTP status code of the response is never inspected — a non-2xx
response is processed like any other and judged solely by the marker
check. -/
theorem validateCallback_transport_failures (sa : SteamAuther) (vals : Values)
    (st : Nat) (stxt : String) (e : String) (body : String)
    (hmode : valsGet vals "openid.mode" = "id_res") :
    ((ValidateCallback sa vals (fun _ => .error e)).err = some (VErr.postFailed e) ∧
      (ValidateCallback sa vals (fun _ => .error e)).id = "" ∧
      (ValidateCallback sa vals (fun _ => .error e)).requests.length = 1 ∧
      VErr.postFailed e ≠ VErr.invalidAuthRequest) ∧
    ((ValidateCallback sa vals (fun _ => .ok ⟨st, stxt, .error e⟩)).err =
        some (VErr.readFailed e) ∧
      (ValidateCallback sa vals (fun _ => .ok ⟨st, stxt, .error e⟩)).requests.length = 1 ∧
      VErr.readFailed e ≠ VErr.invalidAuthRequest) ∧
    (containsStr body "is_valid:true" = true →
      (ValidateCallback sa vals (fun _ => .ok ⟨st, stxt, .ok body⟩)).err = none) := by
  refine ⟨?_, ?_, ?_⟩
  · rw [validateCallback_postErr_eq sa vals e hmode]
    exact ⟨rfl, rfl, rfl, by simp⟩
  · rw [validateCallback_readErr_eq sa vals st stxt e hmode]
    exact ⟨rfl, rfl, by simp⟩
  · intro hmark
    rw [validateCallback_okResp_eq sa vals st stxt body hmode]
    rw [if_neg (by simp [hmark])]

theorem validateCallback_transport_failures_witness :
    valsGet sampleCallbackVals "openid.mode" = "id_res" ∧
    (((ValidateCallback sampleAuther sampleCallbackVals
        (fun _ => .error "connection refused")).err =
          some (VErr.postFailed "connection refused") ∧
      (ValidateCallback sampleAuther sampleCallbackVals
        (fun _ => .error "connection refused")).id = "" ∧
      (ValidateCallback sampleAuther sampleCallbackVals
        (fun _ => .error "connection refused")).requests.length = 1 ∧
      VErr.postFailed "connection refused" ≠ VErr.invalidAuthRequest) ∧
    ((ValidateCallback sampleAuther sampleCallbackVals
        (fun _ => .ok ⟨503, "503 Service Unavailable", .error "connection refused"⟩)).err =
          some (VErr.readFailed "connection refused") ∧
      (ValidateCallback sampleAuther sampleCallbackVals
        (fun _ => .ok ⟨503, "503 Service Unavailable", .error "connection refused"⟩)).requests.length = 1 ∧
      VErr.readFailed "connection refused" ≠ VErr.invalidAuthRequest) ∧
    (containsStr okBody "is_valid:true" = true →
      (ValidateCallback sampleAuther sampleCallbackVals
        (fun _ => .ok ⟨503, "503 Service Unavailable", .ok okBody⟩)).err = none)) :=
  ⟨by decide,
    validateCallback_transport_failures sampleAuther sampleCallbackVals
      503 "503 Service Unavailable" "connection refused" okBody (by decide)⟩

/-- C5 counterexample: the claim says the caller-supplied parameter mapping
is left unchanged; but on an id_res callback the code overwrites its
openid.mode entry in place, so the map differs after the call. -/
theorem validateCallback_mutates_caller_vals :
    (ValidateCallback (New "k" "r")
      [("openid.mode", ["id_res"]), ("openid.claimed_id", ["x/y"])]
      (fun _ => .ok ⟨200, "200 OK", .ok "is_valid:true"⟩)).vals ≠
      [("openid.mode", ["id_res"]), ("openid.claimed_id", ["x/y"])] := by decide

/-- C5 (amended): on an id_res callback, ValidateCallback overwrites the
mode field of the caller-supplied parameter mapping in place to
"check_authentication" and submits that mapping as the confirmation
request; every field other than openid.mode keeps its original value, but
after the call the caller's mapping holds "check_authentication" as its
mode, not the original "id_res". -/
theorem validateCallback_overwrites_mode_in_place (sa : SteamAuther)
    (vals : Values) (net : String → Except String HttpResp)
    (hmode : valsGet vals "openid.mode" = "id_res") :
    (ValidateCallback sa vals net).vals =
      valsSet vals "openid.mode" "check_authentication" ∧
    valsGet (ValidateCallback sa vals net).vals "openid.mode" =
      "check_authentication" ∧
    (∀ k, k ≠ "openid.mode" →
      valsGet (ValidateCallback sa vals net).vals k = valsGet vals k) ∧
    (ValidateCallback sa vals net).requests =
      [valsEncode (valsSet vals "openid.mode" "check_authentication")] := by
  have hvals : (ValidateCallback sa vals net).vals =
      valsSet vals "openid.mode" "check_authentication" := by
    unfold ValidateCallback
    rw [if_neg (by simp [hmode])]
    dsimp only
    split
    · rfl
    · split
      · rfl
      · split <;> rfl
  have hreq : (ValidateCallback sa vals net).requests =
      [valsEncode (valsSet vals "openid.mode" "check_authentication")] := by
    unfold ValidateCallback
    rw [if_neg (by simp [hmode])]
    dsimp only
    split
    · rfl
    · split
      · rfl
      · split <;> rfl
  refine ⟨hvals, ?_, ?_, hreq⟩
  · rw [hvals, valsGet_valsSet_self]
  · intro k hk
    rw [hvals, valsGet_valsSet_ne vals "openid.mode" "check_authentication" k
      (fun h => hk h.symm)]

theorem validateCallback_overwrites_mode_witness :
    valsGet sampleCallbackVals "openid.mode" = "id_res" ∧
    ((ValidateCallback sampleAuther sampleCallbackVals
        (fun _ => .ok ⟨200, "200 OK", .ok okBody⟩)).vals =
      valsSet sampleCallbackVals "openid.mode" "check_authentication" ∧
    valsGet (ValidateCallback sampleAuther sampleCallbackVals
        (fun _ => .ok ⟨200, "200 OK", .ok okBody⟩)).vals "openid.mode" =
      "check_authentication" ∧
    (∀ k, k ≠ "openid.mode" →
      valsGet (ValidateCallback sampleAuther sampleCallbackVals
        (fun _ => .ok ⟨200, "200 OK", .ok okBody⟩)).vals k =
        valsGet sampleCallbackVals k) ∧
    (ValidateCallback sampleAuther sampleCallbackVals
        (fun _ => .ok ⟨200, "200 OK", .ok okBody⟩)).requests =
      [valsEncode (valsSet sampleCallbackVals "openid.mode" "check_authentication")]) :=
  ⟨by decide,
    validateCallback_overwrites_mode_in_place sampleAuther sampleCallbackVals
      (fun _ => .ok ⟨200, "200 OK", .ok okBody⟩) (by decide)⟩

/-- C9: the authenticator configuration is immutable: after New(apiKey,
realm), no sequence of GetAuthUrl, ValidateCallback and GetSteamUser calls
changes the apiKey or realm fields of the receiver. -/
theorem steamAuther_config_immutable (apiKey realm : String) (ops : List Op) :
    (runOps (New apiKey realm) ops).apiKey = apiKey ∧
    (runOps (New apiKey realm) ops).realm = realm := by
  have hrun : ∀ (sa : SteamAuther) (op : Op), runOp sa op = sa := by
    intro sa op
    cases op with
    | authUrl r => exact getAuthUrl_sa sa r
    | callback vals net => exact validateCallback_sa sa vals net
    | user s net => exact getSteamUser_sa sa s net
  have hall : ∀ (ops : List Op) (sa : SteamAuther), runOps sa ops = sa := by
    intro ops
    induction ops with
    | nil => intro sa; rfl
    | cons op t ih =>
      intro sa
      show runOps (runOp sa op) t = sa
      rw [hrun sa op, ih sa]
  rw [hall ops (New apiKey realm)]
  exact ⟨rfl, rfl⟩

/-- C10: the identifier extraction is total: splitting any claimed_id on
'/' yields a non-empty list, so its last element is defined; when the
claimed_id is absent or empty and the confirmation marker is present,
ValidateCallback succeeds with the empty identifier, and when the
claimed_id contains no '/', it returns the whole claimed_id value. -/
theorem lastSegment_total (s : String) (sa : SteamAuther) (vals : Values)
    (st : Nat) (stxt : String) (body : String)
    (hmode : valsGet vals "openid.mode" = "id_res")
    (hmark : containsStr body "is_valid:true" = true) :
    splitList '/' s.data ≠ [] ∧
    (splitList '/' s.data).length - 1 < (splitList '/' s.data).length ∧
    (s = "" → lastSegment s = "") ∧
    ('/' ∉ s.data → lastSegment s = s) ∧
    (valsGet vals "openid.claimed_id" = "" →
      (ValidateCallback sa vals (fun _ => .ok ⟨st, stxt, .ok body⟩)).err = none ∧
      (ValidateCallback sa vals (fun _ => .ok ⟨st, stxt, .ok body⟩)).id = "") ∧
    ('/' ∉ (valsGet vals "openid.claimed_id").data →
      (ValidateCallback sa vals (fun _ => .ok ⟨st, stxt, .ok body⟩)).id =
        valsGet vals "openid.claimed_id") := by
  have hok : ValidateCallback sa vals (fun _ => .ok ⟨st, stxt, .ok body⟩) =
      { id := lastSegment (valsGet vals "openid.claimed_id"), err := none,
        vals := valsSet vals "openid.mode" "check_authentication",
        requests := [valsEncode (valsSet vals "openid.mode" "check_authentication")],
        sa := sa } := by
    rw [validateCallback_okResp_eq sa vals st stxt body hmode]
    rw [if_neg (by simp [hmark])]
  refine ⟨splitList_ne_nil '/' s.data, ?_, ?_, ?_, ?_, ?_⟩
  · have h := splitList_ne_nil '/' s.data
    have : 0 < (splitList '/' s.data).length := List.length_pos.mpr h
    omega
  · intro hs; subst hs; rfl
  · exact lastSegment_no_slash s
  · intro hempty
    rw [hok]
    exact ⟨rfl, by simp [hempty, lastSegment_empty]⟩
  · intro hslash
    rw [hok]
    exact lastSegment_no_slash _ hslash

theorem lastSegment_total_witness :
    valsGet [("openid.mode", ["id_res"]), ("openid.claimed_id", ["steamid64"])]
      "openid.mode" = "id_res" ∧
    containsStr okBody "is_valid:true" = true ∧
    (splitList '/' ("no-slash" : String).data ≠ [] ∧
      (splitList '/' ("no-slash" : String).data).length - 1 <
        (splitList '/' ("no-slash" : String).data).length ∧
      (("no-slash" : String) = "" → lastSegment "no-slash" = "") ∧
      ('/' ∉ ("no-slash" : String).data → lastSegment "no-slash" = "no-slash") ∧
      (valsGet [("openid.mode", ["id_res"]), ("openid.claimed_id", ["steamid64"])]
          "openid.claimed_id" = "" →
        (ValidateCallback sampleAuther
          [("openid.mode", ["id_res"]), ("openid.claimed_id", ["steamid64"])]
          (fun _ => .ok ⟨200, "200 OK", .ok okBody⟩)).err = none ∧
        (ValidateCallback sampleAuther
          [("openid.mode", ["id_res"]), ("openid.claimed_id", ["steamid64"])]
          (fun _ => .ok ⟨200, "200 OK", .ok okBody⟩)).id = "") ∧
      ('/' ∉ (valsGet [("openid.mode", ["id_res"]), ("openid.claimed_id", ["steamid64"])]
          "openid.claimed_id").data →
        (ValidateCallback sampleAuther
          [("openid.mode", ["id_res"]), ("openid.claimed_id", ["steamid64"])]
          (fun _ => .ok ⟨200, "200 OK", .ok okBody⟩)).id =
          valsGet [("openid.mode", ["id_res"]), ("openid.claimed_id", ["steamid64"])]
            "openid.claimed_id")) :=
  ⟨by decide, by decide,
    lastSegment_total "no-slash" sampleAuther
      [("openid.mode", ["id_res"]), ("openid.claimed_id", ["steamid64"])]
      200 "200 OK" okBody (by decide) (by decide)⟩

theorem decodeStringField_of_lookup (fields : List (String × Json)) (key s : String)
    (h : jlookup key fields = some (.str s)) :
    decodeStringField fields key = .ok s := by
  unfold decodeStringField
  rw [h]

theorem decodeIntField_of_lookup (fields : List (String × Json)) (key : String) (n : Int)
    (h : jlookup key fields = some (.num n)) :
    decodeIntField fields key = .ok n := by
  unfold decodeIntField
  rw [h]

/-- C7: GetSteamUser fails with the unexpected-status error carrying the
status text whenever the profile API responds with a status other than 200;
it fails with the dedicated no-data sentinel whenever the response decodes
to an envelope with an empty players list; and only when the status is 200
and the players list is non-empty does it return the first element. -/
theorem getSteamUser_status_and_players (sa : SteamAuther) (steamid64 : String)
    (st : Nat) (stxt : String) (j : Json) :
    (st ≠ 200 →
      (GetSteamUser sa steamid64 (fun _ => .ok ⟨st, stxt, .ok j⟩)).user = none ∧
      (GetSteamUser sa steamid64 (fun _ => .ok ⟨st, stxt, .ok j⟩)).err =
        some (GErr.badStatus stxt) ∧
      GErr.badStatus stxt ≠ GErr.noData) ∧
    (decodeEnvelope j = .ok [] →
      (GetSteamUser sa steamid64 (fun _ => .ok ⟨200, stxt, .ok j⟩)).user = none ∧
      (GetSteamUser sa steamid64 (fun _ => .ok ⟨200, stxt, .ok j⟩)).err =
        some GErr.noData) ∧
    (∀ (u : SteamUser) (us : List SteamUser), decodeEnvelope j = .ok (u :: us) →
      (GetSteamUser sa steamid64 (fun _ => .ok ⟨200, stxt, .ok j⟩)).user = some u ∧
      (GetSteamUser sa steamid64 (fun _ => .ok ⟨200, stxt, .ok j⟩)).err = none) := by
  refine ⟨?_, ?_, ?_⟩
  · intro hst
    unfold GetSteamUser
    rw [parseApiUrl_eq]
    dsimp only
    rw [if_pos hst]
    exact ⟨rfl, rfl, by simp⟩
  · intro hdec
    unfold GetSteamUser
    rw [parseApiUrl_eq]
    dsimp only
    rw [if_neg (by simp), hdec]
    exact ⟨rfl, rfl⟩
  · intro u us hdec
    unfold GetSteamUser
    rw [parseApiUrl_eq]
    dsimp only
    rw [if_neg (by simp), hdec]
    dsimp only
    rw [if_neg (by simp)]
    exact ⟨rfl, rfl⟩

theorem getSteamUser_status_and_players_witness :
    ((404 : Nat) ≠ 200 →
      (GetSteamUser sampleAuther "76561197960287930"
        (fun _ => .ok ⟨404, "404 Not Found", .ok .null⟩)).user = none ∧
      (GetSteamUser sampleAuther "76561197960287930"
        (fun _ => .ok ⟨404, "404 Not Found", .ok .null⟩)).err =
        some (GErr.badStatus "404 Not Found") ∧
      GErr.badStatus "404 Not Found" ≠ GErr.noData) ∧
    (decodeEnvelope .null = .ok [] →
      (GetSteamUser sampleAuther "76561197960287930"
        (fun _ => .ok ⟨200, "404 Not Found", .ok .null⟩)).user = none ∧
      (GetSteamUser sampleAuther "76561197960287930"
        (fun _ => .ok ⟨200, "404 Not Found", .ok .null⟩)).err = some GErr.noData) ∧
    (∀ (u : SteamUser) (us : List SteamUser), decodeEnvelope .null = .ok (u :: us) →
      (GetSteamUser sampleAuther "76561197960287930"
        (fun _ => .ok ⟨200, "404 Not Found", .ok .null⟩)).user = some u ∧
      (GetSteamUser sampleAuther "76561197960287930"
        (fun _ => .ok ⟨200, "404 Not Found", .ok .null⟩)).err = none) :=
  getSteamUser_status_and_players sampleAuther "76561197960287930"
    404 "404 Not Found" .null

/-- C8: for every well-formed player JSON object (each documented key
present with a value of the right shape), the decoded SteamUser record has
every documented field exactly equal to the corresponding JSON value, with
the enumerated integer fields passed through unchanged, and GetSteamUser
returns exactly that record from a 200 envelope containing the object. -/
theorem steamUser_decode_roundtrip (fields : List (String × Json))
    (sid pn pu av am af : String) (ps pfs cvs : Int)
    (h1 : jlookup "steamid" fields = some (.str sid))
    (h2 : jlookup "personaname" fields = some (.str pn))
    (h3 : jlookup "personastate" fields = some (.num ps))
    (h4 : jlookup "profileurl" fields = some (.str pu))
    (h5 : jlookup "profilestate" fields = some (.num pfs))
    (h6 : jlookup "communityvisibilitystate" fields = some (.num cvs))
    (h7 : jlookup "avatar" fields = some (.str av))
    (h8 : jlookup "avatarmedium" fields = some (.str am))
    (h9 : jlookup "avatarfull" fields = some (.str af))
    (sa : SteamAuther) (steamid64 : String) (stxt : String) :
    decodeSteamUser (.obj fields) =
      .ok ⟨sid, pn, ps, pu, pfs, cvs, av, am, af⟩ ∧
    (GetSteamUser sa steamid64 (fun _ => .ok ⟨200, stxt,
        .ok (.obj [("response", .obj [("players", .arr [.obj fields])])])⟩)).user =
      some ⟨sid, pn, ps, pu, pfs, cvs, av, am, af⟩ ∧
    (GetSteamUser sa steamid64 (fun _ => .ok ⟨200, stxt,
        .ok (.obj [("response", .obj [("players", .arr [.obj fields])])])⟩)).err =
      none := by
  have hdecode : decodeSteamUser (.obj fields) =
      .ok ⟨sid, pn, ps, pu, pfs, cvs, av, am, af⟩ := by
    unfold decodeSteamUser
    dsimp only
    rw [decodeStringField_of_lookup fields "steamid" sid h1]
    rw [decodeStringField_of_lookup fields "personaname" pn h2]
    rw [decodeIntField_of_lookup fields "personastate" ps h3]
    rw [decodeStringField_of_lookup fields "profileurl" pu h4]
    rw [decodeIntField_of_lookup fields "profilestate" pfs h5]
    rw [decodeIntField_of_lookup fields "communityvisibilitystate" cvs h6]
    rw [decodeStringField_of_lookup fields "avatar" av h7]
    rw [decodeStringField_of_lookup fields "avatarmedium" am h8]
    rw [decodeStringField_of_lookup fields "avatarfull" af h9]
    rfl
  have henv1 : decodeEnvelope
      (.obj [("response", .obj [("players", .arr [.obj fields])])]) =
      decodePlayers [.obj fields] := rfl
  have henv2 : decodePlayers [.obj fields] =
      .ok [⟨sid, pn, ps, pu, pfs, cvs, av, am, af⟩] := by
    unfold decodePlayers
    rw [hdecode]
    rfl
  have henv := henv1.trans henv2
  refine ⟨hdecode, ?_, ?_⟩ <;>
  · unfold GetSteamUser
    rw [parseApiUrl_eq]
    dsimp only
    rw [if_neg (by simp), henv]
    rfl

theorem steamUser_decode_roundtrip_witness :
    jlookup "steamid" samplePlayer = some (.str "76561197960287930") ∧
    jlookup "personastate" samplePlayer = some (.num 1) ∧
    (decodeSteamUser (.obj samplePlayer) =
      .ok ⟨"76561197960287930", "Rabscuttle", 1,
        "https://steamcommunity.com/id/rabscuttle/", 1, 3,
        "https://avatars.example/a32.jpg", "https://avatars.example/a64.jpg",
        "https://avatars.example/a128.jpg"⟩ ∧
    (GetSteamUser sampleAuther "76561197960287930" (fun _ => .ok ⟨200, "200 OK",
        .ok (.obj [("response", .obj [("players", .arr [.obj samplePlayer])])])⟩)).user =
      some ⟨"76561197960287930", "Rabscuttle", 1,
        "https://steamcommunity.com/id/rabscuttle/", 1, 3,
        "https://avatars.example/a32.jpg", "https://avatars.example/a64.jpg",
        "https://avatars.example/a128.jpg"⟩ ∧
    (GetSteamUser sampleAuther "76561197960287930" (fun _ => .ok ⟨200, "200 OK",
        .ok (.obj [("response", .obj [("players", .arr [.obj samplePlayer])])])⟩)).err =
      none) :=
  ⟨rfl, rfl,
    steamUser_decode_roundtrip samplePlayer
      "76561197960287930" "Rabscuttle" "https://steamcommunity.com/id/rabscuttle/"
      "https://avatars.example/a32.jpg" "https://avatars.example/a64.jpg"
      "https://avatars.example/a128.jpg" 1 1 3
      rfl rfl rfl rfl rfl rfl rfl rfl rfl
      sampleAuther "76561197960287930" "200 OK"⟩

/-! ### Percent-encoding round trip (net/url QueryEscape and QueryUnescape) -/

theorem hexVal_upperHexDigit : ∀ n, n < 16 → hexVal (upperHexDigit n) = some n := by
  decide

theorem unescapeList_cons_other (c : Char) (t : List Char)
    (h1 : ¬c = '%') (h2 : ¬c = '+') :
    unescapeList (c :: t) = (unescapeList t).map (fun r => c :: r) := by
  rw [unescapeList.eq_def]
  dsimp only
  rw [if_neg h1, if_neg h2]

theorem unescapeList_cons_plus (t : List Char) :
    unescapeList ('+' :: t) = (unescapeList t).map (fun r => ' ' :: r) := by
  rw [unescapeList.eq_def]
  dsimp only
  rw [if_neg (by decide), if_pos rfl]

theorem unescapeList_percent (h1 h2 : Char) (t : List Char) (a b : Nat)
    (ha : hexVal h1 = some a) (hb : hexVal h2 = some b) :
    unescapeList ('%' :: h1 :: h2 :: t) =
      (unescapeList t).map (fun r => Char.ofNat (16 * a + b) :: r) := by
  rw [unescapeList.eq_def]
  dsimp only
  rw [ha, hb]
  rw [if_pos rfl]

theorem unescape_escapeChar (c : Char) (hc : c.toNat < 256) (rest : List Char) :
    unescapeList (escapeChar c ++ rest) = (unescapeList rest).map (fun r => c :: r) := by
  unfold escapeChar
  by_cases h1 : isUnreservedChar c
  · rw [if_pos h1]
    have hp : ¬c = '%' := fun h => by rw [h] at h1; exact absurd h1 (by decide)
    have hq : ¬c = '+' := fun h => by rw [h] at h1; exact absurd h1 (by decide)
    simpa using unescapeList_cons_other c rest hp hq
  · rw [if_neg h1]
    by_cases h2 : c = ' '
    · rw [if_pos h2, h2]
      simpa using unescapeList_cons_plus rest
    · rw [if_neg h2]
      have hdiv : c.toNat / 16 < 16 := Nat.div_lt_of_lt_mul (by omega)
      have hmod : c.toNat % 16 < 16 := Nat.mod_lt _ (by norm_num)
      have h := unescapeList_percent (upperHexDigit (c.toNat / 16))
        (upperHexDigit (c.toNat % 16)) rest (c.toNat / 16) (c.toNat % 16)
        (hexVal_upperHexDigit _ hdiv) (hexVal_upperHexDigit _ hmod)
      simpa [Nat.div_add_mod c.toNat 16] using h

theorem unescape_escapeList (l : List Char) (hl : ∀ c ∈ l, c.toNat < 256)
    (rest : List Char) :
    unescapeList (escapeList l ++ rest) = (unescapeList rest).map (fun r => l ++ r) := by
  induction l with
  | nil =>
    simp only [escapeList, List.map_nil, List.flatten_nil, List.nil_append]
    cases unescapeList rest <;> simp
  | cons c t ih =>
    have hc : c.toNat < 256 := hl c (List.mem_cons_self c t)
    have ht : ∀ x ∈ t, x.toNat < 256 := fun x hx => hl x (List.mem_cons_of_mem c hx)
    have he : escapeList (c :: t) = escapeChar c ++ escapeList t := by
      simp [escapeList]
    rw [he, List.append_assoc, unescape_escapeChar c hc, ih ht]
    cases unescapeList rest <;> simp

theorem unescapeList_escapeList (l : List Char) (hl : ∀ c ∈ l, c.toNat < 256) :
    unescapeList (escapeList l) = some l := by
  have h := unescape_escapeList l hl []
  have h0 : unescapeList ([] : List Char) = some [] := by rw [unescapeList.eq_def]
  simpa [h0] using h

theorem escapeChar_safe (c : Char) (hc : c.toNat < 256) (d : Char)
    (hd : d ∈ escapeChar c) :
    (isUnreservedChar d || d = '+' || d = '%' || (hexVal d).isSome) = true := by
  unfold escapeChar at hd
  by_cases h1 : isUnreservedChar c
  · rw [if_pos h1] at hd
    simp only [List.mem_singleton] at hd
    subst hd
    simp [h1]
  · rw [if_neg h1] at hd
    by_cases h2 : c = ' '
    · rw [if_pos h2] at hd
      simp only [List.mem_singleton] at hd
      subst hd
      decide
    · rw [if_neg h2] at hd
      have hhex : ∀ n, n < 16 →
          (isUnreservedChar (upperHexDigit n) || upperHexDigit n = '+' ||
            upperHexDigit n = '%' || (hexVal (upperHexDigit n)).isSome) = true := by
        decide
      rcases List.mem_cons.mp hd with h | h
      · subst h; decide
      · rcases List.mem_cons.mp h with h | h
        · subst h
          exact hhex _ (Nat.div_lt_of_lt_mul (by omega))
        · rcases List.mem_cons.mp h with h | h
          · subst h
            exact hhex _ (Nat.mod_lt _ (by norm_num))
          · cases h

theorem escapeList_safe (l : List Char) (hl : ∀ c ∈ l, c.toNat < 256) (d : Char)
    (hd : d ∈ escapeList l) :
    (isUnreservedChar d || d = '+' || d = '%' || (hexVal d).isSome) = true := by
  unfold escapeList at hd
  rcases List.mem_flatten.mp hd with ⟨blk, hblk, hdblk⟩
  rcases List.mem_map.mp hblk with ⟨c, hcl, rfl⟩
  exact escapeChar_safe c (hl c hcl) d hdblk

theorem amp_not_mem_escapeList (l : List Char) (hl : ∀ c ∈ l, c.toNat < 256) :
    '&' ∉ escapeList l :=
  fun h => absurd (escapeList_safe l hl '&' h) (by decide)

theorem cutChar_append (sep : Char) (a b : List Char) (ha : sep ∉ a) :
    cutChar sep (a ++ sep :: b) = (a, b, true) := by
  induction a with
  | nil =>
    simp only [List.nil_append]
    rw [cutChar, if_pos rfl]
  | cons c t ih =>
    simp only [List.mem_cons, not_or] at ha
    have hc : ¬c = sep := fun h => ha.1 h.symm
    simp only [List.cons_append]
    rw [cutChar, if_neg hc, ih ha.2]

theorem splitList_append (sep : Char) (a b : List Char) (ha : sep ∉ a) :
    splitList sep (a ++ sep :: b) = a :: splitList sep b := by
  induction a with
  | nil =>
    simp only [List.nil_append]
    rw [splitList, if_pos rfl]
  | cons c t ih =>
    simp only [List.mem_cons, not_or] at ha
    have hc : ¬c = sep := fun h => ha.1 h.symm
    simp only [List.cons_append]
    rw [splitList, if_neg hc, ih ha.2]

theorem parseQueryStep_keyval (ekS v : String) (acc : Values)
    (hek : '=' ∉ ekS.data)
    (hkuns : unescapeList ekS.data = some ekS.data)
    (hv : ∀ c ∈ v.data, c.toNat < 256) :
    parseQueryStep (ekS.data ++ '=' :: escapeList v.data) acc = valsAdd acc ekS v := by
  unfold parseQueryStep
  rw [if_neg (by simp)]
  dsimp only
  rw [cutChar_append '=' ekS.data (escapeList v.data) hek]
  dsimp only
  rw [hkuns, unescapeList_escapeList v.data hv]

set_option maxRecDepth 8192

/-- C6: for every return URL R and configured realm (embedded as byte
strings), GetAuthUrl succeeds and returns an absolute URL to
https://steamcommunity.com/openid/login whose query string, parsed back
with url.ParseQuery, carries openid.ns, openid.mode=checkid_setup,
openid.realm=the configured realm, openid.return_to=R, and claimed_id and
identity both equal to the identifier_select sentinel; an error could only
arise from parsing the fixed endpoint, which succeeds. -/
theorem getAuthUrl_query_params (sa : SteamAuther) (R : String)
    (hrealm : ∀ c ∈ sa.realm.data, c.toNat < 256)
    (hret : ∀ c ∈ R.data, c.toNat < 256) :
    (GetAuthUrl sa R).err = none ∧
    ∃ q : String,
      (GetAuthUrl sa R).url = "https://steamcommunity.com/openid/login?" ++ q ∧
      parseUrl (GetAuthUrl sa R).url =
        some ⟨"https", "steamcommunity.com", "/openid/login", q⟩ ∧
      valsGet (parseQueryGo q) "openid.ns" = "http://specs.openid.net/auth/2.0" ∧
      valsGet (parseQueryGo q) "openid.mode" = "checkid_setup" ∧
      valsGet (parseQueryGo q) "openid.realm" = sa.realm ∧
      valsGet (parseQueryGo q) "openid.return_to" = R ∧
      valsGet (parseQueryGo q) "openid.claimed_id" =
        "http://specs.openid.net/auth/2.0/identifier_select" ∧
      valsGet (parseQueryGo q) "openid.identity" =
        "http://specs.openid.net/auth/2.0/identifier_select" := by
  have hQF : (valsSet (valsSet (valsSet (valsSet (valsSet (valsSet (parseQueryGo "")
      "openid.ns" "http://specs.openid.net/auth/2.0")
      "openid.mode" "checkid_setup")
      "openid.realm" sa.realm)
      "openid.return_to" R)
      "openid.claimed_id" "http://specs.openid.net/auth/2.0/identifier_select")
      "openid.identity" "http://specs.openid.net/auth/2.0/identifier_select") =
      [("openid.ns", ["http://specs.openid.net/auth/2.0"]),
       ("openid.mode", ["checkid_setup"]),
       ("openid.realm", [sa.realm]),
       ("openid.return_to", [R]),
       ("openid.claimed_id", ["http://specs.openid.net/auth/2.0/identifier_select"]),
       ("openid.identity", ["http://specs.openid.net/auth/2.0/identifier_select"])] := rfl
  have hE : (valsEncode [("openid.ns", ["http://specs.openid.net/auth/2.0"]),
       ("openid.mode", ["checkid_setup"]),
       ("openid.realm", [sa.realm]),
       ("openid.return_to", [R]),
       ("openid.claimed_id", ["http://specs.openid.net/auth/2.0/identifier_select"]),
       ("openid.identity", ["http://specs.openid.net/auth/2.0/identifier_select"])]).data =
      ("openid.claimed_id=http%3A%2F%2Fspecs.openid.net%2Fauth%2F2.0%2Fidentifier_select" : String).data ++
      '&' :: (("openid.identity=http%3A%2F%2Fspecs.openid.net%2Fauth%2F2.0%2Fidentifier_select" : String).data ++
      '&' :: (("openid.mode=checkid_setup" : String).data ++
      '&' :: (("openid.ns=http%3A%2F%2Fspecs.openid.net%2Fauth%2F2.0" : String).data ++
      '&' :: ((("openid.realm" : String).data ++ '=' :: escapeList sa.realm.data) ++
      '&' :: (("openid.return_to" : String).data ++ '=' :: escapeList R.data))))) := rfl
  have hne : valsEncode [("openid.ns", ["http://specs.openid.net/auth/2.0"]),
       ("openid.mode", ["checkid_setup"]),
       ("openid.realm", [sa.realm]),
       ("openid.return_to", [R]),
       ("openid.claimed_id", ["http://specs.openid.net/auth/2.0/identifier_select"]),
       ("openid.identity", ["http://specs.openid.net/auth/2.0/identifier_select"])] ≠ "" := by
    intro h
    have hd := congrArg String.data h
    rw [hE] at hd
    exact absurd (List.append_eq_nil.mp hd).1 (by decide)
  have hurl : (GetAuthUrl sa R).url = "https://steamcommunity.com/openid/login?" ++
      valsEncode [("openid.ns", ["http://specs.openid.net/auth/2.0"]),
       ("openid.mode", ["checkid_setup"]),
       ("openid.realm", [sa.realm]),
       ("openid.return_to", [R]),
       ("openid.claimed_id", ["http://specs.openid.net/auth/2.0/identifier_select"]),
       ("openid.identity", ["http://specs.openid.net/auth/2.0/identifier_select"])] := by
    unfold GetAuthUrl
    rw [parseOpenIdLoginUrl_eq]
    dsimp only
    rw [hQF]
    unfold urlString
    dsimp only
    rw [if_neg hne]
    rfl
  have h5amp : '&' ∉ ("openid.realm" : String).data ++ '=' :: escapeList sa.realm.data := by
    intro hmem
    rcases List.mem_append.mp hmem with h | h
    · exact absurd h (by decide)
    · rcases List.mem_cons.mp h with h | h
      · exact absurd h (by decide)
      · exact amp_not_mem_escapeList sa.realm.data hrealm h
  have h6amp : '&' ∉ ("openid.return_to" : String).data ++ '=' :: escapeList R.data := by
    intro hmem
    rcases List.mem_append.mp hmem with h | h
    · exact absurd h (by decide)
    · rcases List.mem_cons.mp h with h | h
      · exact absurd h (by decide)
      · exact amp_not_mem_escapeList R.data hret h
  have hsplit : splitList '&' (valsEncode [("openid.ns", ["http://specs.openid.net/auth/2.0"]),
       ("openid.mode", ["checkid_setup"]),
       ("openid.realm", [sa.realm]),
       ("openid.return_to", [R]),
       ("openid.claimed_id", ["http://specs.openid.net/auth/2.0/identifier_select"]),
       ("openid.identity", ["http://specs.openid.net/auth/2.0/identifier_select"])]).data =
      [("openid.claimed_id=http%3A%2F%2Fspecs.openid.net%2Fauth%2F2.0%2Fidentifier_select" : String).data,
       ("openid.identity=http%3A%2F%2Fspecs.openid.net%2Fauth%2F2.0%2Fidentifier_select" : String).data,
       ("openid.mode=checkid_setup" : String).data,
       ("openid.ns=http%3A%2F%2Fspecs.openid.net%2Fauth%2F2.0" : String).data,
       ("openid.realm" : String).data ++ '=' :: escapeList sa.realm.data,
       ("openid.return_to" : String).data ++ '=' :: escapeList R.data] := by
    rw [hE]
    rw [splitList_append '&' _ _ (by decide)]
    rw [splitList_append '&' _ _ (by decide)]
    rw [splitList_append '&' _ _ (by decide)]
    rw [splitList_append '&' _ _ (by decide)]
    rw [splitList_append '&' _ _ h5amp]
    rw [splitList_not_mem '&' _ h6amp]
  have s1 : ∀ acc : Values, parseQueryStep
      (("openid.claimed_id=http%3A%2F%2Fspecs.openid.net%2Fauth%2F2.0%2Fidentifier_select" : String).data) acc =
      valsAdd acc "openid.claimed_id" "http://specs.openid.net/auth/2.0/identifier_select" :=
    fun _ => rfl
  have s2 : ∀ acc : Values, parseQueryStep
      (("openid.identity=http%3A%2F%2Fspecs.openid.net%2Fauth%2F2.0%2Fidentifier_select" : String).data) acc =
      valsAdd acc "openid.identity" "http://specs.openid.net/auth/2.0/identifier_select" :=
    fun _ => rfl
  have s3 : ∀ acc : Values, parseQueryStep (("openid.mode=checkid_setup" : String).data) acc =
      valsAdd acc "openid.mode" "checkid_setup" :=
    fun _ => rfl
  have s4 : ∀ acc : Values, parseQueryStep
      (("openid.ns=http%3A%2F%2Fspecs.openid.net%2Fauth%2F2.0" : String).data) acc =
      valsAdd acc "openid.ns" "http://specs.openid.net/auth/2.0" :=
    fun _ => rfl
  have hparse : parseQueryGo (valsEncode [("openid.ns", ["http://specs.openid.net/auth/2.0"]),
       ("openid.mode", ["checkid_setup"]),
       ("openid.realm", [sa.realm]),
       ("openid.return_to", [R]),
       ("openid.claimed_id", ["http://specs.openid.net/auth/2.0/identifier_select"]),
       ("openid.identity", ["http://specs.openid.net/auth/2.0/identifier_select"])]) =
      valsAdd (valsAdd (valsAdd (valsAdd (valsAdd (valsAdd []
        "openid.claimed_id" "http://specs.openid.net/auth/2.0/identifier_select")
        "openid.identity" "http://specs.openid.net/auth/2.0/identifier_select")
        "openid.mode" "checkid_setup")
        "openid.ns" "http://specs.openid.net/auth/2.0")
        "openid.realm" sa.realm)
        "openid.return_to" R := by
    unfold parseQueryGo
    rw [hsplit]
    simp only [List.foldl_cons, List.foldl_nil]
    rw [s1, s2, s3, s4]
    rw [parseQueryStep_keyval "openid.realm" sa.realm _ (by decide) (by decide) hrealm]
    rw [parseQueryStep_keyval "openid.return_to" R _ (by decide) (by decide) hret]
  refine ⟨rfl, valsEncode [("openid.ns", ["http://specs.openid.net/auth/2.0"]),
       ("openid.mode", ["checkid_setup"]),
       ("openid.realm", [sa.realm]),
       ("openid.return_to", [R]),
       ("openid.claimed_id", ["http://specs.openid.net/auth/2.0/identifier_select"]),
       ("openid.identity", ["http://specs.openid.net/auth/2.0/identifier_select"])],
    hurl, ?_, ?_, ?_, ?_, ?_, ?_, ?_⟩
  · rw [hurl]; rfl
  · rw [hparse]; rfl
  · rw [hparse]; rfl
  · rw [hparse]; rfl
  · rw [hparse]; rfl
  · rw [hparse]; rfl
  · rw [hparse]; rfl

theorem getAuthUrl_query_params_witness :
    (∀ c ∈ sampleAuther.realm.data, c.toNat < 256) ∧
    (∀ c ∈ ("http://localhost:8080/auth/callback" : String).data, c.toNat < 256) ∧
    ((GetAuthUrl sampleAuther "http://localhost:8080/auth/callback").err = none ∧
      ∃ q : String,
        (GetAuthUrl sampleAuther "http://localhost:8080/auth/callback").url =
          "https://steamcommunity.com/openid/login?" ++ q ∧
        parseUrl (GetAuthUrl sampleAuther "http://localhost:8080/auth/callback").url =
          some ⟨"https", "steamcommunity.com", "/openid/login", q⟩ ∧
        valsGet (parseQueryGo q) "openid.ns" = "http://specs.openid.net/auth/2.0" ∧
        valsGet (parseQueryGo q) "openid.mode" = "checkid_setup" ∧
        valsGet (parseQueryGo q) "openid.realm" = sampleAuther.realm ∧
        valsGet (parseQueryGo q) "openid.return_to" = "http://localhost:8080/auth/callback" ∧
        valsGet (parseQueryGo q) "openid.claimed_id" =
          "http://specs.openid.net/auth/2.0/identifier_select" ∧
        valsGet (parseQueryGo q) "openid.identity" =
          "http://specs.openid.net/auth/2.0/identifier_select") :=
  ⟨by decide, by decide,
    getAuthUrl_query_params sampleAuther "http://localhost:8080/auth/callback"
      (by decide) (by decide)⟩

end GoSteamAuth
